import Mathlib

/-!
# Verification of the TTS batch pipeline (`tts_batch.py`)

A shallow embedding of the chunking / markup / size-guard / retry / merge
pipeline of `tts_batch.py`, together with theorems settling the frozen
claims about its specification.

Conventions:
* Python strings are modelled by `String` (a list of unicode code points,
  matching Python's `str` semantics of per-code-point operations).
* Python `None` is `Option.none`; exceptions are modelled by `Option`
  results where a claim needs them.
* External collaborators (the Azure speech SDK, `ffmpeg`, `unicodedata`)
  are modelled only at their interface boundary, exactly as the spec
  scopes them.
-/

set_option maxRecDepth 10000

/-! ## Python string primitives used by the source -/

/-- The carriage-return character. -/
def CR : Char := Char.ofNat 13

/-- The line-feed character. -/
def LF : Char := Char.ofNat 10

/-- The horizontal-tab character. -/
def TAB : Char := Char.ofNat 9

/-- The single-quote character (written via its code point). -/
def SQ : Char := Char.ofNat 39

/-- Python's notion of a whitespace character: the set matched by `str.strip()`
and by the regex class `\s` (ASCII whitespace, the C1 separators, NEL, NBSP and
the Unicode space/line/paragraph separators). -/
def py_is_space (c : Char) : Bool :=
  decide (c.toNat = 32 ∨ (9 ≤ c.toNat ∧ c.toNat ≤ 13) ∨ (28 ≤ c.toNat ∧ c.toNat ≤ 31) ∨
    c.toNat = 133 ∨ c.toNat = 160 ∨ c.toNat = 5760 ∨ (8192 ≤ c.toNat ∧ c.toNat ≤ 8202) ∨
    c.toNat = 8232 ∨ c.toNat = 8233 ∨ c.toNat = 8239 ∨ c.toNat = 8287 ∨ c.toNat = 12288)

/-- Python `str.strip()`: remove whitespace from both ends. -/
def py_strip (s : String) : String :=
  String.mk (((s.toList.dropWhile py_is_space).reverse.dropWhile py_is_space).reverse)

/-- Python `str.lower()`, restricted to the ASCII case mapping (all strings fed
through it by the theorems below are ASCII, where this is exact). -/
def py_lower (s : String) : String :=
  String.mk (s.toList.map Char.toLower)

/-- `needle.isPrefixOf hay` on strings, modelling Python `str.startswith`. -/
def py_starts_with (s p : String) : Bool :=
  p.toList.isPrefixOf s.toList

/-- Python's `needle in hay` substring test. -/
def sub_occurs (needle : List Char) : List Char → Bool
  | [] => needle.isEmpty
  | c :: rest => needle.isPrefixOf (c :: rest) || sub_occurs needle rest

/-- Python `str.split("\n")`: split on every line feed, keeping empty pieces. -/
def split_on_lf_go (acc : List Char) : List Char → List String
  | [] => [String.mk acc.reverse]
  | c :: rest =>
    if c = LF then String.mk acc.reverse :: split_on_lf_go [] rest
    else split_on_lf_go (c :: acc) rest

/-- Python `str.split("\n")` on a string. -/
def split_on_lf (s : String) : List String :=
  split_on_lf_go [] s.toList

/-- The characters Python `str.splitlines()` treats as line boundaries
(besides the CRLF pair, which counts as a single boundary). -/
def is_line_break (c : Char) : Bool :=
  decide (c.toNat = 10 ∨ c.toNat = 11 ∨ c.toNat = 12 ∨ c.toNat = 13 ∨ c.toNat = 28 ∨
    c.toNat = 29 ∨ c.toNat = 30 ∨ c.toNat = 133 ∨ c.toNat = 8232 ∨ c.toNat = 8233)

/-- Worker for `py_splitlines` (structural on the second argument; the CRLF
pair is consumed as a single boundary). -/
def py_splitlines_go : List Char → List Char → List String
  | acc, [] => if acc = [] then [] else [String.mk acc.reverse]
  | acc, [c] =>
    if c = CR ∨ is_line_break c then [String.mk acc.reverse]
    else [String.mk (c :: acc).reverse]
  | acc, c :: d :: rest =>
    if c = CR then
      if d = LF then String.mk acc.reverse :: py_splitlines_go [] rest
      else String.mk acc.reverse :: py_splitlines_go [] (d :: rest)
    else if is_line_break c then String.mk acc.reverse :: py_splitlines_go [] (d :: rest)
    else py_splitlines_go (c :: acc) (d :: rest)

/-- Python `str.splitlines()` (no trailing empty line, `"" ↦ []`). -/
def py_splitlines (s : String) : List String :=
  py_splitlines_go [] s.toList

/-- Python `"\n".join(strings)`. -/
def join_nl : List String → String
  | [] => ""
  | [s] => s
  | s :: rest => s ++ "\n" ++ join_nl rest

/-- Lexicographic comparison of code-point sequences: Python's `<` on `str`. -/
def py_str_lt : List Char → List Char → Bool
  | [], [] => false
  | [], _ :: _ => true
  | _ :: _, [] => false
  | a :: as, b :: bs =>
    if a.toNat < b.toNat then true
    else if b.toNat < a.toNat then false
    else py_str_lt as bs

/-! ## `sanitize_text` and `strict_clean_sentence` (tts_batch.py lines 61-72) -/

/-- A zero-width or BOM character removed by `sanitize_text`. -/
def is_zero_width (c : Char) : Bool :=
  decide (c.toNat = 0x200b ∨ c.toNat = 0x200c ∨ c.toNat = 0x200d ∨
    c.toNat = 0xfeff ∨ c.toNat = 0x2060)

/-- `s.replace("\r\n", "\n").replace("\r", "\n")`. -/
def norm_newlines : List Char → List Char
  | [] => []
  | [c] => if c = CR then [LF] else [c]
  | c :: d :: rest =>
    if c = CR then
      if d = LF then LF :: norm_newlines rest else LF :: norm_newlines (d :: rest)
    else c :: norm_newlines (d :: rest)

/-- `unicodedata.normalize("NFC", s)`: an external Unicode-library call, out of
scope per the spec; modelled at the boundary as the identity, which is exact on
text that is already in NFC form — in particular on all ASCII text, the only
text the concrete theorems below feed through it. -/
def nfc_normalize (s : String) : String := s

/-- `sanitize_text` (lines 61-67): newline normalization, zero-width removal,
control-character filtering (tab and line feed kept), NFC normalization. -/
def sanitize_text (s : String) : String :=
  let cs1 := norm_newlines s.toList
  let cs2 := cs1.filter (fun c => !(is_zero_width c))
  let cs3 := cs2.filter (fun c => decide (32 ≤ c.toNat) || c == LF || c == TAB)
  nfc_normalize (String.mk cs3)

/-- The character whitelist of `strict_clean_sentence` (line 71). -/
def strict_allowed_chars : List Char :=
  "abcdefghijklmnopqrstuvwxyzABCDEFGHIJKLMNOPQRSTUVWXYZ0123456789 .,!?;:".toList ++
    [SQ] ++ "\"-()[]\x7b\x7d%/:+&=_".toList

/-- `strict_clean_sentence` (lines 69-72): replace non-whitelisted characters
by spaces. -/
def strict_clean_sentence (s : String) : String :=
  String.mk (s.toList.map (fun ch => if strict_allowed_chars.contains ch then ch else ' '))

/-! ## `slugify` (tts_batch.py lines 74-76) -/

/-- A character of the class `[a-z0-9_-]` kept by `slugify`. -/
def slug_allowed (c : Char) : Bool :=
  decide (('a' ≤ c ∧ c ≤ 'z') ∨ ('0' ≤ c ∧ c ≤ '9') ∨ c = '_' ∨ c = '-')

/-- `re.sub(r"[^a-z0-9_-]+", "-", ·)`: each maximal run of disallowed
characters becomes a single dash.  The flag records whether the scanner is
inside such a run. -/
def slug_sub_runs (in_run : Bool) : List Char → List Char
  | [] => []
  | c :: rest =>
    if slug_allowed c then c :: slug_sub_runs false rest
    else if in_run then slug_sub_runs true rest
    else '-' :: slug_sub_runs true rest

/-- Python `str.strip("-")`. -/
def strip_dashes (cs : List Char) : List Char :=
  ((cs.dropWhile (fun c => c = '-')).reverse.dropWhile (fun c => c = '-')).reverse

/-- `slugify` (lines 74-76). -/
def slugify (s : String) : String :=
  let s1 := (py_strip s).toList.map Char.toLower
  let s2 := s1.map (fun c => if c = ' ' then '-' else c)
  let s3 := slug_sub_runs false s2
  let s4 := strip_dashes (s3.take 80)
  if s4 = [] then "episode" else String.mk s4

/-! ## Sentence splitting and role lines (tts_batch.py lines 40-41, 78-91) -/

/-- The sentence-terminal punctuation class `[\.\?\!。！？]` of `SENT_SPLIT`. -/
def is_sent_punct (c : Char) : Bool :=
  decide (c = '.' ∨ c = '?' ∨ c = '!' ∨ c.toNat = 0x3002 ∨
    c.toNat = 0xff01 ∨ c.toNat = 0xff1f)

/-- Whether the last character consumed into the accumulator is sentence
punctuation (the accumulator is kept reversed, so its head is that
character). -/
def punct_head : List Char → Bool
  | p :: _ => is_sent_punct p
  | [] => false

/-- Scanner for `re.split(r'(?<=[\.\?\!。！？])\s+', text)`: a split happens at
each whitespace run immediately preceded by terminal punctuation; `skipping`
records that the scanner is inside the matched whitespace run. -/
def sent_split_go (acc : List Char) (skipping : Bool) : List Char → List (List Char)
  | [] => [acc.reverse]
  | c :: rest =>
    if skipping then
      if py_is_space c then sent_split_go acc true rest
      else sent_split_go (c :: acc) false rest
    else if py_is_space c && punct_head acc then
      acc.reverse :: sent_split_go [] true rest
    else sent_split_go (c :: acc) false rest

/-- `SENT_SPLIT.split(text)` (line 41). -/
def sent_split (text : String) : List String :=
  (sent_split_go [] false text.toList).map (fun cs => String.mk cs)

/-- `to_sentences` (lines 87-91). -/
def to_sentences (text : String) (strict : Bool) : List String :=
  let segs := (sent_split text).filterMap (fun seg =>
    if seg = "" ∨ py_strip seg = "" then none else some (py_strip seg))
  if strict then segs.map strict_clean_sentence else segs

/-- Match the role word (case-insensitively) as a prefix, returning the
remaining characters. -/
def strip_role_word : List Char → List Char → Option (List Char)
  | [], cs => some cs
  | _ :: _, [] => none
  | r :: rs, c :: cs => if Char.toLower c = r then strip_role_word rs cs else none

/-- After the role word, `ROLE_LINE_PAT` requires `\s*:\s*(.+)$`; the result is
`m.group(2).strip()`.  When nothing at all follows the colon the regex fails
(`(.+)` needs at least one character); when only whitespace follows, the
stripped content is empty. -/
def after_role_content (rest : List Char) : Option String :=
  match rest.dropWhile py_is_space with
  | c :: r2 => if c = ':' then (if r2 = [] then none else some (py_strip (String.mk r2))) else none
  | [] => none

/-- `ROLE_LINE_PAT.match(line)` (line 40): anchored, case-insensitive
`^(host|scientist)\s*:\s*(.+)$`; returns (is-host?, stripped content). -/
def match_role_line (line : String) : Option (Bool × String) :=
  let try_host :=
    match strip_role_word "host".toList line.toList with
    | some rest => (after_role_content rest).map (fun content => (true, content))
    | none => none
  match try_host with
  | some r => some r
  | none =>
    match strip_role_word "scientist".toList line.toList with
    | some rest => (after_role_content rest).map (fun content => (false, content))
    | none => none

/-- `parse_role_line` (lines 78-85). -/
def parse_role_line (line voice_host voice_sci : String) : String × String :=
  match match_role_line line with
  | some (is_host, content) => (if is_host then voice_host else voice_sci, content)
  | none => (voice_host, py_strip line)

/-! ## `build_dialog_items` and `chunk_dialog_items` (lines 93-127) -/

/-- A chunk: an ordered list of (voice, sentences) groups. -/
abbrev Chunk := List (String × List String)

/-- `build_dialog_items` (lines 93-102). -/
def build_dialog_items (body voice_host voice_sci : String) (strict : Bool) :
    List (String × List String) :=
  (split_on_lf body).filterMap (fun raw_ln =>
    let ln := py_strip raw_ln
    if ln = "" then none
    else
      let vc := parse_role_line ln voice_host voice_sci
      let sents := to_sentences vc.2 strict
      some (vc.1, if sents = [] then [vc.2] else sents))

/-- The mutable state of the planner loop in `chunk_dialog_items`:
closed chunks, the running chunk, and its running sentence/character counts. -/
structure PlanState where
  chunks : List Chunk
  cur : Chunk
  sent_count : Nat
  char_count : Nat
deriving Repr, DecidableEq

/-- The inner `flush()` closure (lines 109-113): close the running chunk if it
is nonempty. -/
def plan_flush (st : PlanState) : PlanState :=
  if st.cur = [] then st else ⟨st.chunks ++ [st.cur], [], 0, 0⟩

/-- `cur[-1][1].append(s)` / `cur.append((voice, [s]))` (lines 120-123):
append the sentence to the last group when its voice matches, else start a
new group. -/
def append_to_cur : Chunk → String → String → Chunk
  | [], voice, s => [(voice, [s])]
  | [g], voice, s => if g.1 = voice then [(g.1, g.2 ++ [s])] else [g, (voice, [s])]
  | g :: g2 :: rest, voice, s => g :: append_to_cur (g2 :: rest) voice s

/-- Lines 120-125: place the sentence into the running chunk and bump the
counters. -/
def plan_place_sentence (voice s : String) (st1 : PlanState) : PlanState :=
  ⟨st1.chunks, append_to_cur st1.cur voice s, st1.sent_count + 1, st1.char_count + s.length⟩

/-- One iteration of the sentence loop (lines 116-125): flush when adding the
sentence would exceed either limit, then place the sentence and bump the
counters. -/
def plan_add_sentence (max_sents max_chars : Nat) (voice s : String) (st : PlanState) :
    PlanState :=
  plan_place_sentence voice s
    (if max_sents < st.sent_count + 1 ∨ max_chars < st.char_count + s.length
     then plan_flush st else st)

/-- The `for s in sents` loop of `chunk_dialog_items`. -/
def plan_sents (max_sents max_chars : Nat) (voice : String) :
    List String → PlanState → PlanState
  | [], st => st
  | s :: rest, st =>
    plan_sents max_sents max_chars voice rest (plan_add_sentence max_sents max_chars voice s st)

/-- The `for voice, sents in items` loop of `chunk_dialog_items`. -/
def plan_items (max_sents max_chars : Nat) :
    List (String × List String) → PlanState → PlanState
  | [], st => st
  | (v, sents) :: rest, st =>
    plan_items max_sents max_chars rest (plan_sents max_sents max_chars v sents st)

/-- `chunk_dialog_items` (lines 104-127). -/
def chunk_dialog_items (items : List (String × List String)) (max_sents max_chars : Nat) :
    List Chunk :=
  (plan_flush (plan_items max_sents max_chars items ⟨[], [], 0, 0⟩)).chunks

/-- The sentences of a chunk, in document order. -/
def chunk_sents (c : Chunk) : List String :=
  (c.map Prod.snd).flatten

/-- The sentences of a list of chunks, in document order. -/
def all_sents (cs : List Chunk) : List String :=
  (cs.map chunk_sents).flatten

/-- The sentences of a list of dialogue items, in document order. -/
def items_sents (items : List (String × List String)) : List String :=
  (items.map Prod.snd).flatten

/-- The sentence count of a chunk. -/
def sent_count_of (c : Chunk) : Nat :=
  (chunk_sents c).length

/-- The character count of a chunk (sum of its sentences' lengths, exactly the
quantity the planner's `char_count` tracks). -/
def char_count_of (c : Chunk) : Nat :=
  ((chunk_sents c).map String.length).sum

/-- All sentences held by a planner state, in document order: the closed
chunks followed by the running chunk. -/
def state_sents (st : PlanState) : List String :=
  all_sents st.chunks ++ chunk_sents st.cur

/-- The dual-limit invariant of a planner chunk: within both limits, or the
exceptional single sentence that alone exceeds the character limit. -/
def chunk_within_limits (max_sents max_chars : Nat) (c : Chunk) : Prop :=
  (sent_count_of c ≤ max_sents ∧ char_count_of c ≤ max_chars) ∨
    (sent_count_of c = 1 ∧ max_chars < char_count_of c)

/-- The planner-loop invariant: the running counters track the running chunk,
the running chunk is empty or within limits, and every closed chunk is within
limits. -/
def plan_inv (max_sents max_chars : Nat) (st : PlanState) : Prop :=
  st.sent_count = sent_count_of st.cur ∧
    st.char_count = char_count_of st.cur ∧
    (st.cur = [] ∨ chunk_within_limits max_sents max_chars st.cur) ∧
    (∀ c ∈ st.chunks, chunk_within_limits max_sents max_chars c)

/-! ## `build_ssml_from_chunk` and `split_chunk_in_half` (lines 129-145) -/

/-- The per-character replacement of `html.escape(·, quote=True)`. -/
def html_escape_char (c : Char) : List Char :=
  if c = '&' then "&amp;".toList
  else if c = '<' then "&lt;".toList
  else if c = '>' then "&gt;".toList
  else if c = '"' then "&quot;".toList
  else if c = SQ then "&#x27;".toList
  else [c]

/-- `html.escape(s, quote=True)`. -/
def html_escape (s : String) : String :=
  String.mk (s.toList.flatMap html_escape_char)

/-- Python `"".join(strings)`. -/
def str_concat : List String → String
  | [] => ""
  | s :: rest => s ++ str_concat rest

/-- The per-sentence markup `"<s>" + escape(seg) + "</s><break time='…ms'/>"`
(lines 132-135). -/
def sentence_piece (break_ms : Nat) (seg : String) : String :=
  "<s>" ++ html_escape seg ++ "</s><break time=" ++ String.singleton SQ ++
    toString break_ms ++ "ms" ++ String.singleton SQ ++ "/>"

/-- The per-group markup (lines 136-138): voice element wrapping a prosody
element wrapping the sentence pieces. -/
def group_piece (rate : String) (break_ms : Nat) (g : String × List String) : String :=
  "<voice name=\"" ++ g.1 ++ "\"><prosody rate=\"" ++ html_escape rate ++ "\">" ++
    str_concat (g.2.map (sentence_piece break_ms)) ++ "</prosody></voice>"

/-- `build_ssml_from_chunk` (lines 129-139). -/
def build_ssml_from_chunk (chunk : Chunk) (rate : String) (break_ms : Nat) : String :=
  "<speak version=\"1.0\" xml:lang=\"en-US\">" ++
    str_concat (chunk.map (group_piece rate break_ms)) ++ "</speak>"

/-- `SSML_MAX_LEN` (line 43). -/
def SSML_MAX_LEN : Nat := 4500

/-- `split_chunk_in_half` (lines 141-145). -/
def split_chunk_in_half (chunk : Chunk) : List Chunk :=
  if chunk.length ≤ 1 then [chunk]
  else [chunk.take (chunk.length / 2), chunk.drop (chunk.length / 2)]

/-! ## The size-guard splitting loop of `process_file` (lines 228-243) -/

/-- `len(build_ssml_from_chunk(c, …)) > SSML_MAX_LEN`. -/
def ssml_over_limit (rate : String) (break_ms : Nat) (c : Chunk) : Bool :=
  decide (SSML_MAX_LEN < (build_ssml_from_chunk c rate break_ms).length)

/-- One pass of the inner `for c in subs` loop (lines 233-241): oversized
sub-chunks are replaced by their halves, others kept. -/
def size_guard_pass (rate : String) (break_ms : Nat) (subs : List Chunk) : List Chunk :=
  subs.flatMap (fun c =>
    if ssml_over_limit rate break_ms c then split_chunk_in_half c else [c])

/-- The `need_split` flag computed by a pass (lines 232-237). -/
def size_guard_need_split (rate : String) (break_ms : Nat) (subs : List Chunk) : Bool :=
  subs.any (ssml_over_limit rate break_ms)

/-- The `while True` splitting loop (lines 231-243), with an explicit fuel
bounding the number of passes; the exit condition is re-checked each round, so
once the loop would have exited any further fuel leaves the result unchanged.
The loop fails to terminate on an input exactly when no amount of fuel reaches
a state with `size_guard_need_split = false`. -/
def size_guard_loop (rate : String) (break_ms : Nat) : Nat → List Chunk → List Chunk
  | 0, subs => subs
  | fuel + 1, subs =>
    if size_guard_need_split rate break_ms subs then
      size_guard_loop rate break_ms fuel (size_guard_pass rate break_ms subs)
    else subs

/-! ## `synth_ssml_with_retry` (lines 148-195): attempt/retry structure -/

/-- The outcome of one `speak_ssml_async(...).get()` call, as classified by the
source: completed, or cancelled with the formatted error-detail string `err`
(`"reason=…; error=…"`). -/
inductive SynthOutcome where
  | completed : SynthOutcome
  | canceled : String → SynthOutcome
deriving Repr, DecidableEq

/-- The keyword list of the retriability classifier (lines 184-186). -/
def RETRIABLE_KEYWORDS : List String :=
  ["timeout", "throttle", "429", "temporarily", "connection", "network", "quota",
    "rate limit", "server busy"]

/-- `retriable = any(k in err.lower() for k in [...])` (lines 184-186). -/
def is_retriable_err (err : String) : Bool :=
  RETRIABLE_KEYWORDS.any (fun k => sub_occurs k.toList (py_lower err).toList)

/-- The `while True` attempt loop of `synth_ssml_with_retry` (lines 168-195).
The loop variable `attempt` (incremented at the top of each iteration) is
encoded by the structurally decreasing `gas := retries + 1 - attempt`, so the
loop's own guard `attempt <= retries` is exactly `gas ≥ 1`.  The oracle gives
the service's outcome for each attempt number.  Returns (number of the final
attempt, `none` on success / `some err` for the terminal `RuntimeError`). -/
def synth_retry_go (oracle : Nat → SynthOutcome) (retries : Nat) :
    Nat → Nat × Option String
  | 0 =>
    match oracle (retries + 1) with
    | SynthOutcome.completed => (retries + 1, none)
    | SynthOutcome.canceled err => (retries + 1, some err)
  | g + 1 =>
    match oracle (retries + 1 - (g + 1)) with
    | SynthOutcome.completed => (retries + 1 - (g + 1), none)
    | SynthOutcome.canceled err =>
      if is_retriable_err err then synth_retry_go oracle retries g
      else (retries + 1 - (g + 1), some err)

/-- `synth_ssml_with_retry` from the first attempt (`attempt = 1`, i.e.
`gas = retries`). -/
def synth_ssml_with_retry_run (oracle : Nat → SynthOutcome) (retries : Nat) :
    Nat × Option String :=
  synth_retry_go oracle retries retries

/-! ## Fragment ordering and merging (`main`, lines 346-351) -/

/-- Insert a name into an already sorted list (ascending Python string
order). -/
def sorted_insert (x : String) : List String → List String
  | [] => [x]
  | y :: ys => if py_str_lt x.toList y.toList then x :: y :: ys else y :: sorted_insert x ys

/-- `sorted(outs, key=lambda pth: pth.name)` (line 348): plain ascending sort
of the fragment file names under Python's lexicographic string order. -/
def sorted_by_name : List String → List String
  | [] => []
  | x :: xs => sorted_insert x (sorted_by_name xs)

/-- `pathlib.PurePath.stem` for the names produced here (a basename with an
extension): the name up to its last dot. -/
def stem_of (name : String) : String :=
  let r := name.toList.reverse
  match r.dropWhile (fun c => ¬ (c = '.')) with
  | [] => name
  | _ :: rest => String.mk rest.reverse

/-- `re.sub(r"_part\d+_\d+$", "", stem)` (line 349): strip a trailing
`_part<digits>_<digits>` suffix if present. -/
def strip_part_suffix (stem : String) : String :=
  let r := stem.toList.reverse
  let d1 := r.takeWhile Char.isDigit
  let r1 := r.dropWhile Char.isDigit
  if d1 = [] then stem
  else
    match r1 with
    | '_' :: r2 =>
      let d2 := r2.takeWhile Char.isDigit
      let r3 := r2.dropWhile Char.isDigit
      if d2 = [] then stem
      else
        match r3 with
        | 't' :: 'r' :: 'a' :: 'p' :: '_' :: r4 => String.mk r4.reverse
        | _ => stem
    | _ => stem

/-- The merge decision of `main` (lines 346-350): only when `--merge` is set
and the document produced more than one fragment are the fragments sorted by
name and merged into `{base}_full.mp3`; otherwise no merged artifact is
produced.  Returns the ordered merge list and the merged name. -/
def merge_plan (merge_flag : Bool) (outs : List String) : Option (List String × String) :=
  if merge_flag ∧ 1 < outs.length then
    let outs_sorted := sorted_by_name outs
    some (outs_sorted, strip_part_suffix (stem_of (outs_sorted.headD "")) ++ "_full.mp3")
  else none

/-! ## `process_file` (lines 198-248): skip rules, naming, chunk/unit plan -/

/-- `raw[1].lower().startswith("date:")` and `raw[1].split(":", 1)[1].strip()`
(lines 208-209). -/
def after_first_colon (cs : List Char) : List Char :=
  match cs.dropWhile (fun c => ¬ (c = ':')) with
  | [] => []
  | _ :: rest => rest

/-- The optional `Date:` header value of line 2 (lines 207-209). -/
def parse_date_line (line : String) : Option String :=
  if py_starts_with (py_lower line) "date:" then
    some (py_strip (String.mk (after_first_colon line.toList)))
  else none

/-- `body = sanitize_text("\n".join(raw[2:]).strip())` (line 213): the
synthesized body is built from the third physical line onward. -/
def file_body (raw : List String) : String :=
  sanitize_text (py_strip (join_nl (raw.drop 2)))

/-- `enumerate(l, start)` with a 1-based start. -/
def enum_from (i : Nat) : List α → List (Nat × α)
  | [] => []
  | x :: xs => (i, x) :: enum_from (i + 1) xs

/-- The output name of the sub-unit `j` of chunk `idx` (lines 247-248): the
bare base name when the document has a single chunk with a single sub-unit,
else `{stem}_part{idx}_{j}.mp3`. -/
def sub_out_name (total_chunks subs_len : Nat) (base_stem base_name : String)
    (idx j : Nat) : String :=
  if total_chunks = 1 ∧ subs_len = 1 then base_name
  else base_stem ++ "_part" ++ toString idx ++ "_" ++ toString j ++ ".mp3"

/-- The per-chunk body of `process_file` (lines 228-248): size-guard each
chunk, then name each resulting sub-unit. -/
def plan_outputs (rate : String) (break_ms guard_fuel : Nat)
    (base_stem base_name : String) (chunks : List Chunk) : List (String × Chunk) :=
  (enum_from 1 chunks).flatMap (fun ic =>
    let subs := size_guard_loop rate break_ms guard_fuel [ic.2]
    (enum_from 1 subs).map (fun js =>
      (sub_out_name chunks.length subs.length base_stem base_name ic.1 js.1, js.2)))

/-- The pure planning part of `process_file` (lines 198-248), from the raw
line list of the input file: the skip rules (fewer than 3 lines; sanitized
body shorter than 20 characters), title/date/naming, dialogue parsing,
chunk planning and size-guard splitting.  `today` stands for
`datetime.date.today().isoformat()`.  Returns `none` when the file is skipped,
else the ordered list of (output name, sub-chunk) pairs. -/
def process_file_plan (raw : List String) (voice_host voice_sci rate : String)
    (max_sents max_chars break_ms : Nat) (strict_clean : Bool) (guard_fuel : Nat)
    (today : String) : Option (List (String × Chunk)) :=
  if raw.length < 3 then none
  else
    let title := py_strip (if raw.getD 0 "" = "" then "Episode" else raw.getD 0 "")
    let date :=
      match parse_date_line (raw.getD 1 "") with
      | some d => if d = "" then today else d
      | none => today
    let body := file_body raw
    if body.length < 20 then none
    else
      let safe_date := String.mk (date.toList.filter (fun c => ¬ (c = '-')))
      let base_stem := safe_date ++ "_" ++ slugify title
      let base_name := base_stem ++ ".mp3"
      let items := build_dialog_items body voice_host voice_sci strict_clean
      let chunks := chunk_dialog_items items max_sents max_chars
      some (plan_outputs rate break_ms guard_fuel base_stem base_name chunks)

/-- `process_file` on the text content of the input file
(`txt_path.read_text(...).splitlines()`, line 201). -/
def process_file_from_text (content : String) (voice_host voice_sci rate : String)
    (max_sents max_chars break_ms : Nat) (strict_clean : Bool) (guard_fuel : Nat)
    (today : String) : Option (List (String × Chunk)) :=
  process_file_plan (py_splitlines content) voice_host voice_sci rate
    max_sents max_chars break_ms strict_clean guard_fuel today

/-- `VOICE_HOST_DEFAULT` (line 36). -/
def VOICE_HOST_DEFAULT : String := "en-US-JennyNeural"

/-- `VOICE_SCI_DEFAULT` (line 37). -/
def VOICE_SCI_DEFAULT : String := "en-US-GuyNeural"

/-- `RATE_DEFAULT` (line 38). -/
def RATE_DEFAULT : String := "30%"

/-- `DEFAULT_BREAK_MS` (line 32). -/
def DEFAULT_BREAK_MS : Nat := 250

/-- A chunk consisting of a single (voice, sentences) group whose rendered
markup exceeds the 4500-character ceiling: one 4500-character sentence (such a
chunk arises from any body line holding one long sentence with no internal
sentence boundary, since the planner places an over-`C_max` sentence alone in
its own chunk). -/
def oversized_single_group_chunk : Chunk :=
  [("en-US-JennyNeural", [String.mk (List.replicate 4500 'a')])]

example : py_lower "AbC Xz:" = "abc xz:" := by decide
example : py_strip "  a b  " = "a b" := by decide
example : slugify "My Title" = "my-title" := by decide
example : to_sentences "Hello there. Scientist: Indeed it is." false =
    ["Hello there.", "Scientist: Indeed it is."] := by decide
example : py_splitlines "a\nb\nc" = ["a", "b", "c"] := by decide
example : parse_role_line "Host: Hi there." "vh" "vs" = ("vh", "Hi there.") := by decide
example : is_retriable_err "reason=Error; error=Quota exceeded" = true := by decide
example : is_retriable_err "reason=Error; error=bad voice" = false := by decide
example : sorted_by_name ["x_part2_1.mp3", "x_part10_1.mp3"] =
    ["x_part10_1.mp3", "x_part2_1.mp3"] := by decide
example : strip_part_suffix "20240301_my-title_part2_1" = "20240301_my-title" := by decide
example : stem_of "a_b.mp3" = "a_b" := by decide
example : synth_ssml_with_retry_run (fun _ => SynthOutcome.canceled "timeout") 2 =
    (3, some "timeout") := by decide
example : synth_ssml_with_retry_run (fun _ => SynthOutcome.canceled "bad voice") 2 =
    (1, some "bad voice") := by decide
example : synth_ssml_with_retry_run
    (fun a => if a ≤ 2 then SynthOutcome.canceled "429" else SynthOutcome.completed) 5 =
    (3, none) := by decide

/-! ## Helper lemmas about the retry loop -/

/-- The final attempt number never exceeds `retries + 1`. -/
theorem synth_retry_go_fst_le (oracle : Nat → SynthOutcome) (retries : Nat) :
    ∀ gas, (synth_retry_go oracle retries gas).1 ≤ retries + 1 := by
  intro gas
  induction gas with
  | zero =>
    simp only [synth_retry_go]
    cases oracle (retries + 1) <;> simp
  | succ g ih =>
    simp only [synth_retry_go]
    cases oracle (retries + 1 - (g + 1)) with
    | completed => simp only []; omega
    | canceled err =>
      by_cases h : is_retriable_err err = true
      · simp [h, ih]
      · simp only [Bool.not_eq_true] at h
        simp only [h, Bool.false_eq_true, if_false]
        omega

/-- When every attempt is cancelled with one fixed retriable error, the loop
exhausts all its retries and fails terminally on attempt `retries + 1`. -/
theorem synth_retry_go_const_canceled (err : String) (h : is_retriable_err err = true)
    (retries : Nat) :
    ∀ gas, synth_retry_go (fun _ => SynthOutcome.canceled err) retries gas
      = (retries + 1, some err) := by
  intro gas
  induction gas with
  | zero => simp [synth_retry_go]
  | succ g ih => simp [synth_retry_go, h, ih]

/-! ## Claims C4 and C5: retry classification and attempt count -/

/-- Claim C4, counterexample: a cancellation whose error detail indicates
permanent quota exhaustion is NOT failed immediately — the message contains
the keyword `quota`, so the classifier marks it retriable and the client
(with the default 5 retries) issues 6 attempts instead of failing the unit on
attempt 1. -/
theorem c4_quota_error_is_retried :
    is_retriable_err
        "reason=CancellationReason.Error; error=quota exceeded permanently" = true ∧
      (synth_ssml_with_retry_run
        (fun _ => SynthOutcome.canceled
          "reason=CancellationReason.Error; error=quota exceeded permanently") 5).1 = 6 ∧
      ¬ (synth_ssml_with_retry_run
        (fun _ => SynthOutcome.canceled
          "reason=CancellationReason.Error; error=quota exceeded permanently") 5).1 = 1 := by
  refine ⟨by decide, by decide, by decide⟩

/-- Claim C4 (amended): a synthesis cancellation whose error detail mentions
`quota` (in particular one reporting permanent quota exhaustion) is classified
as RETRIABLE — `"quota"` is in the keyword list of lines 184-186 — so the
client retries it with backoff until the retry budget is exhausted, failing
terminally only on attempt `retries + 1`; it does not fail the unit
immediately. -/
theorem c4_quota_classified_retriable (err : String) (retries : Nat)
    (h : sub_occurs "quota".toList (py_lower err).toList = true) :
    is_retriable_err err = true ∧
      synth_ssml_with_retry_run (fun _ => SynthOutcome.canceled err) retries
        = (retries + 1, some err) := by
  have hr : is_retriable_err err = true := by
    apply List.any_eq_true.mpr
    exact ⟨"quota", by decide, h⟩
  exact ⟨hr, synth_retry_go_const_canceled err hr retries retries⟩

/-- Claim C4, witness for the amended theorem at a concrete quota-exhaustion
error detail with the default retry count. -/
theorem c4_quota_classified_retriable_witness :
    is_retriable_err "reason=Error; error=Quota exceeded, permanently exhausted" = true ∧
      synth_ssml_with_retry_run
        (fun _ => SynthOutcome.canceled
          "reason=Error; error=Quota exceeded, permanently exhausted") 5
        = (6, some "reason=Error; error=Quota exceeded, permanently exhausted") :=
  c4_quota_classified_retriable
    "reason=Error; error=Quota exceeded, permanently exhausted" 5 (by decide)

/-- Claim C5, counterexample: with the configured retry count `N = 5` and every
attempt cancelled by a retriable (connection) error, the client issues 6
synthesis attempts before failing terminally — more than the at-most-`N`
attempts the claim states. -/
theorem c5_attempts_exceed_retry_count :
    (synth_ssml_with_retry_run
        (fun _ => SynthOutcome.canceled "connection reset by peer") 5).1 = 6 ∧
      ¬ (synth_ssml_with_retry_run
        (fun _ => SynthOutcome.canceled "connection reset by peer") 5).1 ≤ 5 := by
  refine ⟨by decide, by decide⟩

/-- Claim C5 (amended): for every unit and configured retry count `N`, the
client issues at most `N + 1` synthesis attempts (the initial attempt plus up
to `N` retries); when every attempt is cancelled with one fixed retriable
error it issues exactly `N + 1` attempts and then fails terminally with that
error. -/
theorem c5_attempt_count_bound (err : String) (retries : Nat)
    (h : is_retriable_err err = true) :
    synth_ssml_with_retry_run (fun _ => SynthOutcome.canceled err) retries
        = (retries + 1, some err) ∧
      ∀ oracle : Nat → SynthOutcome,
        (synth_ssml_with_retry_run oracle retries).1 ≤ retries + 1 := by
  refine ⟨synth_retry_go_const_canceled err h retries retries, fun oracle => ?_⟩
  exact synth_retry_go_fst_le oracle retries retries

/-- Claim C5, witness for the amended theorem: throttling errors on every
attempt with the default retry count give exactly 6 attempts, and the bound
holds at a concrete oracle. -/
theorem c5_attempt_count_bound_witness :
    synth_ssml_with_retry_run (fun _ => SynthOutcome.canceled "server busy") 5
        = (6, some "server busy") ∧
      ∀ oracle : Nat → SynthOutcome, (synth_ssml_with_retry_run oracle 5).1 ≤ 6 :=
  c5_attempt_count_bound "server busy" 5 (by decide)

/-! ## Claims C6 and C7: fragment ordering and the merge decision -/

/-- Claim C6 (code bug): `main` orders fragments by a plain lexicographic sort
of their names (line 348), not a numeric-aware sort.  Evaluated at the
fragment names of a ten-chunk document, the fragment of chunk 10 is placed
before the fragments of chunks 1 and 2 in the merge list, so chunk 2's
fragment does not precede chunk 10's as the claim states. -/
theorem c6_lexical_sort_misorders_part10 :
    merge_plan true
        ["20240301_ep_part1_1.mp3", "20240301_ep_part2_1.mp3", "20240301_ep_part10_1.mp3"]
      = some
        (["20240301_ep_part10_1.mp3", "20240301_ep_part1_1.mp3", "20240301_ep_part2_1.mp3"],
          "20240301_ep_full.mp3") := by
  decide

/-- Claim C7, counterexample: a document that produced exactly one fragment
yields no merged `_full` artifact at all — the merge branch of `main`
(line 346) requires strictly more than one fragment, so with `--merge` set and
a single fragment the merge plan is empty. -/
theorem c7_single_fragment_not_merged :
    merge_plan true ["20240301_my-title.mp3"] = none := by
  decide

/-- Claim C7 (amended): a document that produced at most one fragment yields
no `{base}_full.mp3` episode artifact: `main` merges only when more than one
fragment exists, and no copy/rename fallback produces a `_full` name for the
single-fragment case (that lone fragment is instead written directly under its
own name). -/
theorem c7_merge_skipped_for_single_fragment (merge_flag : Bool) (outs : List String)
    (h : outs.length ≤ 1) : merge_plan merge_flag outs = none := by
  unfold merge_plan
  rw [if_neg]
  rintro ⟨-, h2⟩
  omega

/-- Claim C7, witness for the amended theorem at a concrete single-fragment
output list. -/
theorem c7_merge_skipped_for_single_fragment_witness :
    merge_plan true ["20240301_ep.mp3"] = none :=
  c7_merge_skipped_for_single_fragment true ["20240301_ep.mp3"] (by decide)

/-! ## Helper lemmas about substring occurrence -/

/-- The empty needle occurs in every haystack. -/
theorem sub_occurs_nil_left (hay : List Char) : sub_occurs [] hay = true := by
  induction hay with
  | nil => rfl
  | cons c rest ih => simp [sub_occurs, List.isPrefixOf]

/-- A needle occurs at any explicitly exhibited position. -/
theorem sub_occurs_at (s n t : List Char) : sub_occurs n (s ++ (n ++ t)) = true := by
  induction s with
  | nil =>
    cases n with
    | nil => exact sub_occurs_nil_left _
    | cons a as =>
      simp only [List.nil_append, List.cons_append, sub_occurs, Bool.or_eq_true]
      left
      have h : (a :: as).isPrefixOf ((a :: as) ++ t) = true := by
        rw [List.isPrefixOf_iff_prefix]
        exact List.prefix_append _ _
      simp only [List.cons_append] at h
      exact h
  | cons c s ih => simp [sub_occurs, ih]

/-- String-level form: if `hay = s ++ (m ++ t)` then `m` occurs in `hay` in the
sense of Python's `in` operator. -/
theorem sub_occurs_of_split (hay s m t : String) (h : hay = s ++ (m ++ t)) :
    sub_occurs m.toList hay.toList = true := by
  subst h
  have hdata : (s ++ (m ++ t)).toList = s.toList ++ (m.toList ++ t.toList) := by
    show (s ++ (m ++ t)).data = s.data ++ (m.data ++ t.data)
    simp [String.data_append]
  rw [hdata]
  exact sub_occurs_at _ _ _

/-! ## Claim C9: the markup builder has no restricted-voice branch -/

/-- The rendered markup of any chunk whose first group carries any voice always
contains a `<prosody` annotation, exhibited by an explicit decomposition. -/
theorem build_ssml_prosody_split (voice : String) (sents : List String) (rest : Chunk)
    (rate : String) (break_ms : Nat) :
    build_ssml_from_chunk ((voice, sents) :: rest) rate break_ms =
      ("<speak version=\"1.0\" xml:lang=\"en-US\">" ++
          ("<voice name=\"" ++ (voice ++ "\">"))) ++
        ("<prosody" ++ (" rate=\"" ++ (html_escape rate ++ ("\">" ++
          (str_concat (sents.map (sentence_piece break_ms)) ++ ("</prosody></voice>" ++
            (str_concat (rest.map (group_piece rate break_ms)) ++ "</speak>"))))))) := by
  have hsplit : ("\"><prosody rate=\"" : String) = "\">" ++ ("<prosody" ++ " rate=\"") := rfl
  simp only [build_ssml_from_chunk, List.map_cons, str_concat, group_piece]
  rw [hsplit]
  simp only [String.append_assoc]

/-- The rendered markup of any chunk whose first group has at least one
sentence always contains a `<break` pause annotation. -/
theorem build_ssml_break_split (voice s0 : String) (ss : List String) (rest : Chunk)
    (rate : String) (break_ms : Nat) :
    build_ssml_from_chunk ((voice, s0 :: ss) :: rest) rate break_ms =
      ("<speak version=\"1.0\" xml:lang=\"en-US\">" ++
          ("<voice name=\"" ++ (voice ++ ("\"><prosody rate=\"" ++ (html_escape rate ++
            ("\">" ++ ("<s>" ++ (html_escape s0 ++ "</s>")))))))) ++
        ("<break" ++ (" time=" ++ (String.singleton SQ ++ (toString break_ms ++ ("ms" ++
          (String.singleton SQ ++ ("/>" ++
            (str_concat (ss.map (sentence_piece break_ms)) ++ ("</prosody></voice>" ++
              (str_concat (rest.map (group_piece rate break_ms)) ++ "</speak>")))))))))) := by
  have hsplit : ("</s><break time=" : String) = "</s>" ++ ("<break" ++ " time=") := rfl
  simp only [build_ssml_from_chunk, List.map_cons, str_concat, group_piece, sentence_piece]
  rw [hsplit]
  simp only [String.append_assoc]

/-- Claim C9, counterexample: for a chunk whose voice identifier carries the
restricted-tier markers (`Dragon`, `HD`, `Latest`), the markup builder still
emits both a prosody (rate) annotation and a break (pause) annotation — there
is no capability branch in `build_ssml_from_chunk`. -/
theorem c9_restricted_marker_voice_still_annotated :
    sub_occurs "<prosody".toList
        (build_ssml_from_chunk [("en-US-AvaDragonHDLatestNeural", ["Hi."])]
          RATE_DEFAULT DEFAULT_BREAK_MS).toList = true ∧
      sub_occurs "<break".toList
        (build_ssml_from_chunk [("en-US-AvaDragonHDLatestNeural", ["Hi."])]
          RATE_DEFAULT DEFAULT_BREAK_MS).toList = true := by
  refine ⟨by decide, by decide⟩

/-- Claim C9 (amended): the markup builder applies no restricted-capability
policy at all — for every chunk, every voice identifier (marker-carrying or
not), every rate and every pause duration, the rendered markup of a chunk
whose first group has at least one sentence contains both a `<prosody` rate
annotation and a `<break` pause annotation. -/
theorem c9_markup_always_has_pause_and_rate (voice s0 : String) (ss : List String)
    (rest : Chunk) (rate : String) (break_ms : Nat) :
    sub_occurs "<prosody".toList
        (build_ssml_from_chunk ((voice, s0 :: ss) :: rest) rate break_ms).toList = true ∧
      sub_occurs "<break".toList
        (build_ssml_from_chunk ((voice, s0 :: ss) :: rest) rate break_ms).toList = true := by
  constructor
  · exact sub_occurs_of_split _ _ _ _ (build_ssml_prosody_split voice (s0 :: ss) rest rate break_ms)
  · exact sub_occurs_of_split _ _ _ _ (build_ssml_break_split voice s0 ss rest rate break_ms)

/-! ## Claim C1: the size-guard loop diverges on an oversized single group -/

/-- Escaping a run of `'a'` characters leaves it unchanged. -/
theorem html_escape_char_replicate_a (n : Nat) :
    (List.replicate n 'a').flatMap html_escape_char = List.replicate n 'a' := by
  induction n with
  | zero => rfl
  | succ m ih => rw [List.replicate_succ, List.flatMap_cons, ih]; rfl

/-- The rendered markup of the oversized single-group chunk exceeds the
ceiling (its escaped sentence alone already contributes 4500 characters). -/
theorem oversized_single_group_chunk_over_limit :
    size_guard_need_split RATE_DEFAULT DEFAULT_BREAK_MS [oversized_single_group_chunk] = true := by
  simp only [size_guard_need_split, List.any_cons, List.any_nil, Bool.or_false,
    ssml_over_limit, decide_eq_true_eq, oversized_single_group_chunk, build_ssml_from_chunk,
    List.map_cons, List.map_nil, str_concat, group_piece, sentence_piece, html_escape]
  rw [show (String.mk (List.replicate 4500 'a')).toList = List.replicate 4500 'a' from rfl,
    html_escape_char_replicate_a]
  simp only [String.length_append]
  rw [show (String.mk (List.replicate 4500 'a')).length = 4500 from by
    rw [show (String.mk (List.replicate 4500 'a')).length
        = (List.replicate 4500 'a').length from rfl, List.length_replicate]]
  decide

/-- A single-group chunk is its own halving. -/
theorem split_chunk_in_half_singleton (g : String × List String) :
    split_chunk_in_half [g] = [[g]] := rfl

/-- One pass of the size-guard loop leaves a sub-chunk list consisting of one
chunk with at most one group unchanged. -/
theorem size_guard_pass_small_singleton (rate : String) (break_ms : Nat) (c : Chunk)
    (hc : c.length ≤ 1) : size_guard_pass rate break_ms [c] = [c] := by
  simp only [size_guard_pass, List.flatMap_cons, List.flatMap_nil, List.append_nil]
  split
  · simp [split_chunk_in_half, hc]
  · rfl

/-- No amount of fuel changes a sub-chunk list consisting of one chunk with at
most one group. -/
theorem size_guard_loop_small_singleton (rate : String) (break_ms : Nat) (c : Chunk)
    (hc : c.length ≤ 1) :
    ∀ fuel, size_guard_loop rate break_ms fuel [c] = [c] := by
  intro fuel
  induction fuel with
  | zero => rfl
  | succ n ih =>
    simp only [size_guard_loop]
    split
    · rw [size_guard_pass_small_singleton rate break_ms c hc, ih]
    · rfl

/-- Claim C1 (code bug): on a chunk consisting of a single (voice, sentences)
group whose rendered markup exceeds the 4500-character ceiling, the splitting
loop of `process_file` (lines 231-243) never terminates: every pass returns
the sub-chunk list unchanged (`split_chunk_in_half` cannot subdivide a
single-group chunk) while the `need_split` exit condition remains true, so the
`while True` loop spins forever instead of returning a finite sequence. -/
theorem c1_size_guard_diverges_on_oversized_single_group :
    ∀ fuel,
      size_guard_loop RATE_DEFAULT DEFAULT_BREAK_MS fuel [oversized_single_group_chunk]
          = [oversized_single_group_chunk] ∧
        size_guard_need_split RATE_DEFAULT DEFAULT_BREAK_MS
          (size_guard_loop RATE_DEFAULT DEFAULT_BREAK_MS fuel
            [oversized_single_group_chunk]) = true := by
  have hover := oversized_single_group_chunk_over_limit
  intro fuel
  have hfix := size_guard_loop_small_singleton RATE_DEFAULT DEFAULT_BREAK_MS
    oversized_single_group_chunk (by rfl) fuel
  exact ⟨hfix, by rw [hfix]; exact hover⟩

/-! ## Helper lemmas about sentence flattening -/

/-- `chunk_sents` distributes over group-list concatenation. -/
theorem chunk_sents_append (a b : Chunk) :
    chunk_sents (a ++ b) = chunk_sents a ++ chunk_sents b := by
  simp [chunk_sents]

/-- `all_sents` distributes over chunk-list concatenation. -/
theorem all_sents_append (a b : List Chunk) :
    all_sents (a ++ b) = all_sents a ++ all_sents b := by
  simp [all_sents]

/-- Placing a sentence into the running chunk appends exactly that sentence to
its flattened sentence list. -/
theorem chunk_sents_append_to_cur (cur : Chunk) (voice s : String) :
    chunk_sents (append_to_cur cur voice s) = chunk_sents cur ++ [s] := by
  induction cur with
  | nil => simp [append_to_cur, chunk_sents]
  | cons g rest ih =>
    cases rest with
    | nil =>
      by_cases h : g.1 = voice
      · simp [append_to_cur, h, chunk_sents]
      · simp [append_to_cur, h, chunk_sents]
    | cons g2 rest2 =>
      simp only [append_to_cur, chunk_sents, List.map_cons, List.flatten_cons] at ih ⊢
      rw [ih]
      simp [List.append_assoc]

/-- The sentence count after placing a sentence. -/
theorem sent_count_append_to_cur (cur : Chunk) (voice s : String) :
    sent_count_of (append_to_cur cur voice s) = sent_count_of cur + 1 := by
  simp [sent_count_of, chunk_sents_append_to_cur]

/-- The character count after placing a sentence. -/
theorem char_count_append_to_cur (cur : Chunk) (voice s : String) :
    char_count_of (append_to_cur cur voice s) = char_count_of cur + s.length := by
  simp [char_count_of, chunk_sents_append_to_cur]

/-- The flush helper always leaves an empty running chunk. -/
theorem plan_flush_cur (st : PlanState) : (plan_flush st).cur = [] := by
  unfold plan_flush
  split
  · next h => exact h
  · rfl

/-- Flushing moves sentences but neither drops nor duplicates them. -/
theorem state_sents_plan_flush (st : PlanState) :
    state_sents (plan_flush st) = state_sents st := by
  unfold plan_flush
  split
  · rfl
  · simp [state_sents, all_sents_append, all_sents, chunk_sents]

/-- Placing a sentence appends exactly that sentence to the state's
sentences. -/
theorem state_sents_plan_place (voice s : String) (st1 : PlanState) :
    state_sents (plan_place_sentence voice s st1) = state_sents st1 ++ [s] := by
  simp [plan_place_sentence, state_sents, chunk_sents_append_to_cur, List.append_assoc]

/-- One planner step appends exactly the processed sentence. -/
theorem state_sents_plan_add_sentence (max_sents max_chars : Nat) (voice s : String)
    (st : PlanState) :
    state_sents (plan_add_sentence max_sents max_chars voice s st) = state_sents st ++ [s] := by
  unfold plan_add_sentence
  rw [state_sents_plan_place]
  congr 1
  split
  · exact state_sents_plan_flush st
  · rfl

/-- The inner sentence loop appends exactly the processed sentences. -/
theorem state_sents_plan_sents (max_sents max_chars : Nat) (voice : String)
    (sents : List String) :
    ∀ st, state_sents (plan_sents max_sents max_chars voice sents st)
      = state_sents st ++ sents := by
  induction sents with
  | nil => intro st; simp [plan_sents]
  | cons s rest ih =>
    intro st
    simp only [plan_sents]
    rw [ih, state_sents_plan_add_sentence, List.append_assoc]
    rfl

/-- The outer item loop appends exactly the items' sentences. -/
theorem state_sents_plan_items (max_sents max_chars : Nat)
    (items : List (String × List String)) :
    ∀ st, state_sents (plan_items max_sents max_chars items st)
      = state_sents st ++ items_sents items := by
  induction items with
  | nil => intro st; simp [plan_items, items_sents]
  | cons it rest ih =>
    intro st
    obtain ⟨v, sents⟩ := it
    simp only [plan_items]
    rw [ih, state_sents_plan_sents, List.append_assoc]
    simp [items_sents]

/-- The planner's output carries exactly the input sentences, in order. -/
theorem all_sents_chunk_dialog_items (items : List (String × List String))
    (max_sents max_chars : Nat) :
    all_sents (chunk_dialog_items items max_sents max_chars) = items_sents items := by
  unfold chunk_dialog_items
  have h1 : all_sents (plan_flush (plan_items max_sents max_chars items ⟨[], [], 0, 0⟩)).chunks
      = state_sents (plan_flush (plan_items max_sents max_chars items ⟨[], [], 0, 0⟩)) := by
    rw [state_sents, plan_flush_cur]
    simp [chunk_sents]
  rw [h1, state_sents_plan_flush, state_sents_plan_items]
  simp [state_sents, all_sents, chunk_sents]

/-- Halving a chunk preserves its flattened sentence list. -/
theorem all_sents_split_chunk_in_half (c : Chunk) :
    all_sents (split_chunk_in_half c) = chunk_sents c := by
  unfold split_chunk_in_half
  split
  · simp [all_sents]
  · simp only [all_sents, List.map_cons, List.map_nil, List.flatten_cons, List.flatten_nil,
      List.append_nil]
    rw [← chunk_sents_append, List.take_append_drop]

/-- One pass of the size-guard loop preserves the flattened sentence list. -/
theorem all_sents_size_guard_pass (rate : String) (break_ms : Nat) (subs : List Chunk) :
    all_sents (size_guard_pass rate break_ms subs) = all_sents subs := by
  induction subs with
  | nil => rfl
  | cons c rest ih =>
    simp only [size_guard_pass, List.flatMap_cons] at ih ⊢
    rw [all_sents_append, ih]
    congr 1
    split
    · exact all_sents_split_chunk_in_half c
    · simp [all_sents]

/-- Any number of size-guard passes preserves the flattened sentence list. -/
theorem all_sents_size_guard_loop (rate : String) (break_ms : Nat) (fuel : Nat) :
    ∀ subs, all_sents (size_guard_loop rate break_ms fuel subs) = all_sents subs := by
  induction fuel with
  | zero => intro subs; rfl
  | succ n ih =>
    intro subs
    simp only [size_guard_loop]
    split
    · rw [ih, all_sents_size_guard_pass]
    · rfl

/-! ## Claim C2: no sentence dropped, duplicated, or reordered -/

/-- Claim C2 (confirmed): for every ordered sequence of dialogue items and any
limits, concatenating in document order the sentences of all groups of all
units produced by the chunk planner and then by the size-guard halving (run
with any amount of fuel on each chunk) yields exactly the original sentence
sequence. -/
theorem c2_chunking_preserves_sentences (items : List (String × List String))
    (max_sents max_chars : Nat) (rate : String) (break_ms guard_fuel : Nat) :
    all_sents ((chunk_dialog_items items max_sents max_chars).flatMap
        (fun c => size_guard_loop rate break_ms guard_fuel [c]))
      = items_sents items := by
  have hbind : ∀ chunks : List Chunk,
      all_sents (chunks.flatMap (fun c => size_guard_loop rate break_ms guard_fuel [c]))
        = all_sents chunks := by
    intro chunks
    induction chunks with
    | nil => rfl
    | cons c rest ih =>
      simp only [List.flatMap_cons]
      rw [all_sents_append, ih, all_sents_size_guard_loop]
      simp [all_sents]
  rw [hbind, all_sents_chunk_dialog_items]

example :
    all_sents ((chunk_dialog_items
        [("h", ["One.", "Two."]), ("s", ["Three."]), ("h", ["Four."])] 2 900).flatMap
      (fun c => size_guard_loop "30%" 250 3 [c]))
    = ["One.", "Two.", "Three.", "Four."] := by decide

/-! ## Claim C3: the planner's dual-limit invariant -/

/-- Flushing preserves the planner invariant. -/
theorem plan_flush_inv (max_sents max_chars : Nat) (st : PlanState)
    (h : plan_inv max_sents max_chars st) :
    plan_inv max_sents max_chars (plan_flush st) := by
  unfold plan_flush
  split
  · exact h
  · next hne =>
    obtain ⟨h1, h2, h3, h4⟩ := h
    refine ⟨rfl, rfl, Or.inl rfl, ?_⟩
    intro c hc
    rcases List.mem_append.mp hc with hc | hc
    · exact h4 c hc
    · rw [List.mem_singleton] at hc
      subst hc
      rcases h3 with h3 | h3
      · exact absurd h3 hne
      · exact h3

/-- A freshly started chunk holding one sentence is always within limits or
the one admissible exception. -/
theorem singleton_chunk_within (max_sents max_chars : Nat) (hS : 1 ≤ max_sents)
    (voice s : String) :
    chunk_within_limits max_sents max_chars [(voice, [s])] := by
  unfold chunk_within_limits
  have hs : sent_count_of [(voice, [s])] = 1 := rfl
  have hc : char_count_of [(voice, [s])] = s.length := by
    simp [char_count_of, chunk_sents]
  by_cases hlen : s.length ≤ max_chars
  · exact Or.inl ⟨by rw [hs]; exact hS, by rw [hc]; exact hlen⟩
  · exact Or.inr ⟨hs, by rw [hc]; omega⟩

/-- One planner step preserves the invariant (for a positive sentence
limit). -/
theorem plan_add_sentence_inv (max_sents max_chars : Nat) (hS : 1 ≤ max_sents)
    (voice s : String) (st : PlanState) (h : plan_inv max_sents max_chars st) :
    plan_inv max_sents max_chars (plan_add_sentence max_sents max_chars voice s st) := by
  unfold plan_add_sentence
  split
  · have hf := plan_flush_inv max_sents max_chars st h
    obtain ⟨h1, h2, h3, h4⟩ := hf
    have hcur : (plan_flush st).cur = [] := plan_flush_cur st
    refine ⟨?_, ?_, ?_, h4⟩
    · simp only [plan_place_sentence, sent_count_append_to_cur, h1]
    · simp only [plan_place_sentence, char_count_append_to_cur, h2]
    · simp only [plan_place_sentence, hcur]
      exact Or.inr (by simpa [append_to_cur] using
        singleton_chunk_within max_sents max_chars hS voice s)
  · next hcond =>
    obtain ⟨h1, h2, h3, h4⟩ := h
    push_neg at hcond
    refine ⟨?_, ?_, ?_, h4⟩
    · simp only [plan_place_sentence, sent_count_append_to_cur, h1]
    · simp only [plan_place_sentence, char_count_append_to_cur, h2]
    · simp only [plan_place_sentence, chunk_within_limits, sent_count_append_to_cur,
        char_count_append_to_cur]
      refine Or.inr (Or.inl ⟨?_, ?_⟩)
      · rw [← h1]
        omega
      · rw [← h2]
        omega

/-- The sentence loop preserves the invariant. -/
theorem plan_sents_inv (max_sents max_chars : Nat) (hS : 1 ≤ max_sents) (voice : String)
    (sents : List String) :
    ∀ st, plan_inv max_sents max_chars st →
      plan_inv max_sents max_chars (plan_sents max_sents max_chars voice sents st) := by
  induction sents with
  | nil => intro st h; exact h
  | cons s rest ih =>
    intro st h
    exact ih _ (plan_add_sentence_inv max_sents max_chars hS voice s st h)

/-- The item loop preserves the invariant. -/
theorem plan_items_inv (max_sents max_chars : Nat) (hS : 1 ≤ max_sents)
    (items : List (String × List String)) :
    ∀ st, plan_inv max_sents max_chars st →
      plan_inv max_sents max_chars (plan_items max_sents max_chars items st) := by
  induction items with
  | nil => intro st h; exact h
  | cons it rest ih =>
    intro st h
    obtain ⟨v, sents⟩ := it
    exact ih _ (plan_sents_inv max_sents max_chars hS v sents st h)

/-- Every chunk emitted by the planner is within limits or the admissible
exception. -/
theorem chunk_dialog_items_within (items : List (String × List String))
    (max_sents max_chars : Nat) (hS : 1 ≤ max_sents) :
    ∀ c ∈ chunk_dialog_items items max_sents max_chars,
      chunk_within_limits max_sents max_chars c := by
  have hinit : plan_inv max_sents max_chars ⟨[], [], 0, 0⟩ :=
    ⟨rfl, rfl, Or.inl rfl, by intro c hc; cases hc⟩
  exact (plan_flush_inv _ _ _
    (plan_items_inv max_sents max_chars hS items _ hinit)).2.2.2

/-- Claim C3 (confirmed): for every input item sequence and positive limits,
every chunk returned by the planner has sentence count ≤ `S_max` and character
count ≤ `C_max`, except a chunk containing exactly one sentence whose own
length exceeds `C_max`; moreover any sentence longer than `C_max` is always
placed alone in its own chunk. -/
theorem c3_planner_dual_limits (items : List (String × List String))
    (max_sents max_chars : Nat) (hS : 1 ≤ max_sents) (_hC : 1 ≤ max_chars) :
    ∀ c ∈ chunk_dialog_items items max_sents max_chars,
      ((sent_count_of c ≤ max_sents ∧ char_count_of c ≤ max_chars) ∨
          (sent_count_of c = 1 ∧ max_chars < char_count_of c)) ∧
        ∀ s ∈ chunk_sents c, max_chars < s.length → chunk_sents c = [s] := by
  intro c hc
  have hg := chunk_dialog_items_within items max_sents max_chars hS c hc
  refine ⟨hg, ?_⟩
  intro s hs hlen
  have hmem : s.length ∈ (chunk_sents c).map String.length := List.mem_map_of_mem _ hs
  have hle : s.length ≤ ((chunk_sents c).map String.length).sum :=
    List.single_le_sum (fun x _ => Nat.zero_le x) _ hmem
  have hover : max_chars < char_count_of c := lt_of_lt_of_le hlen hle
  rcases hg with ⟨-, h2⟩ | ⟨h1, -⟩
  · exact absurd hover (by omega)
  · obtain ⟨a, ha⟩ := List.length_eq_one.mp (by simpa [sent_count_of] using h1)
    rw [ha] at hs ⊢
    rw [List.mem_singleton] at hs
    rw [hs]

/-- Claim C3, witness: the theorem applied to a concrete one-item input with
the default limits, at the single chunk it produces. -/
theorem c3_planner_dual_limits_witness :
    ((sent_count_of [("h", ["hi."])] ≤ 20 ∧ char_count_of [("h", ["hi."])] ≤ 900) ∨
        (sent_count_of [("h", ["hi."])] = 1 ∧ 900 < char_count_of [("h", ["hi."])])) ∧
      ∀ s ∈ chunk_sents [("h", ["hi."])], 900 < s.length →
        chunk_sents [("h", ["hi."])] = [s] :=
  c3_planner_dual_limits [("h", ["hi."])] 20 900 (by decide) (by decide)
    [("h", ["hi."])] (by decide)

example : chunk_dialog_items [("h", ["One.", "Two.", "Three."]), ("s", ["Four."])] 2 900 =
    [[("h", ["One.", "Two."])], [("h", ["Three."]), ("s", ["Four."])]] := by decide

/-! ## Claim C8: the two-speaker one-line scenario -/

/-- Claim C8, counterexample: on the scenario input, the pipeline does NOT
produce a chunk with two groups `[host:["Hello there."], sci:["Indeed it
is."]]` — the role pattern is anchored at the start of a physical line, so the
mid-line `Scientist:` tag is not a speaker switch and the whole line stays
with the host voice. -/
theorem c8_scenario_two_group_chunk_refuted :
    ¬ ((process_file_from_text
          "My Title\nDate: 2024-03-01\nHost: Hello there. Scientist: Indeed it is."
          "en-US-JennyNeural" "en-US-GuyNeural" "30%" 20 900 250 false 1
          "2025-06-01").map (fun outs => outs.map Prod.snd)
        = some [[("en-US-JennyNeural", ["Hello there."]),
                 ("en-US-GuyNeural", ["Indeed it is."])]]) := by
  decide

/-- Claim C8 (amended): for the scenario input with `S_max = 20` and
`C_max = 900`, the pipeline produces exactly one chunk consisting of one host
group with the two sentences `"Hello there."` and `"Scientist: Indeed it
is."` (the mid-line `Scientist:` tag is read as host speech, since the role
pattern matches only at line start), rendered as one unit, and the output
file is named `20240301_my-title.mp3`. -/
theorem c8_scenario_actual_output :
    process_file_from_text
        "My Title\nDate: 2024-03-01\nHost: Hello there. Scientist: Indeed it is."
        "en-US-JennyNeural" "en-US-GuyNeural" "30%" 20 900 250 false 1 "2025-06-01"
      = some [("20240301_my-title.mp3",
          [("en-US-JennyNeural", ["Hello there.", "Scientist: Indeed it is."])])] := by
  decide

/-! ## Claim C10: the second line never contributes speech; skip rules -/

/-- Dropping the enumeration indices recovers the enumerated list. -/
theorem enum_from_map_snd {α : Type _} : ∀ (i : Nat) (xs : List α),
    (enum_from i xs).map Prod.snd = xs := by
  intro i xs
  induction xs generalizing i with
  | nil => rfl
  | cons x xs ih => simp [enum_from, ih]

/-- Flat-mapping a function of the element only through an enumeration ignores
the indices. -/
theorem enum_from_flatMap_snd {α β : Type _} (f : α → List β) : ∀ (i : Nat) (xs : List α),
    (enum_from i xs).flatMap (fun ic => f ic.2) = xs.flatMap f := by
  intro i xs
  induction xs generalizing i with
  | nil => rfl
  | cons x xs ih => simp [enum_from, ih]

/-- The sub-chunks planned by `process_file`, stripped of their output names:
the naming (and hence the date and title of the file) has no effect on the
speech content. -/
theorem plan_outputs_snd (rate : String) (break_ms guard_fuel : Nat)
    (base_stem base_name : String) (chunks : List Chunk) :
    (plan_outputs rate break_ms guard_fuel base_stem base_name chunks).map Prod.snd
      = chunks.flatMap (fun c => size_guard_loop rate break_ms guard_fuel [c]) := by
  unfold plan_outputs
  rw [List.map_flatMap]
  have h : ∀ ic : Nat × Chunk,
      ((enum_from 1 (size_guard_loop rate break_ms guard_fuel [ic.2])).map
          (fun js => (sub_out_name chunks.length
            (size_guard_loop rate break_ms guard_fuel [ic.2]).length
            base_stem base_name ic.1 js.1, js.2))).map Prod.snd
        = size_guard_loop rate break_ms guard_fuel [ic.2] := by
    intro ic
    rw [List.map_map]
    exact enum_from_map_snd 1 _
  simp only [h]
  exact enum_from_flatMap_snd (fun c => size_guard_loop rate break_ms guard_fuel [c]) 1 chunks

/-- Characterization of the speech content planned for a file: only the line
count, the body built from line 3 onward, and the chunking parameters matter —
the title and the date line never reach the synthesized content. -/
theorem process_file_plan_speech (raw : List String) (vh vs rate : String)
    (maxS maxC bms : Nat) (strict : Bool) (fuel : Nat) (today : String) :
    (process_file_plan raw vh vs rate maxS maxC bms strict fuel today).map
        (fun outs => outs.map Prod.snd)
      = if raw.length < 3 then none
        else if (file_body raw).length < 20 then none
        else some ((chunk_dialog_items
            (build_dialog_items (file_body raw) vh vs strict) maxS maxC).flatMap
          (fun c => size_guard_loop rate bms fuel [c])) := by
  unfold process_file_plan
  split
  · rfl
  · dsimp only
    split
    · rfl
    · simp only [Option.map_some']
      rw [plan_outputs_snd]

/-- Claim C10 (confirmed): the second physical line never contributes speech
content — replacing it by any other line leaves the planned speech (the named
outputs stripped of their names) unchanged, since the body is built from line
3 onward; moreover a file with fewer than 3 lines, or whose sanitized body is
shorter than 20 characters, is skipped entirely and produces no outputs. -/
theorem c10_second_line_silent_and_skip_rules (vh vs rate : String)
    (maxS maxC bms : Nat) (strict : Bool) (fuel : Nat) (today : String) :
    (∀ (t a b : String) (rest : List String),
        (process_file_plan (t :: a :: rest) vh vs rate maxS maxC bms strict fuel today).map
            (fun outs => outs.map Prod.snd)
          = (process_file_plan (t :: b :: rest) vh vs rate maxS maxC bms strict fuel
              today).map (fun outs => outs.map Prod.snd)) ∧
      (∀ raw : List String, raw.length < 3 →
        process_file_plan raw vh vs rate maxS maxC bms strict fuel today = none) ∧
      (∀ raw : List String, (file_body raw).length < 20 →
        process_file_plan raw vh vs rate maxS maxC bms strict fuel today = none) := by
  refine ⟨?_, ?_, ?_⟩
  · intro t a b rest
    rw [process_file_plan_speech, process_file_plan_speech]
    rfl
  · intro raw h
    unfold process_file_plan
    rw [if_pos h]
  · intro raw h20
    unfold process_file_plan
    split
    · rfl
    · dsimp only
      rw [if_pos h20]

/-- Claim C10, witness: the theorem applied at a concrete too-short file and a
concrete file whose body is under 20 characters. -/
theorem c10_second_line_silent_and_skip_rules_witness :
    process_file_plan ["solo"] "vh" "vs" "30%" 20 900 250 false 1 "2025-06-01" = none ∧
      process_file_plan ["Title", "not a date", "tiny."] "vh" "vs" "30%" 20 900 250 false 1
        "2025-06-01" = none :=
  ⟨(c10_second_line_silent_and_skip_rules "vh" "vs" "30%" 20 900 250 false 1
      "2025-06-01").2.1 ["solo"] (by decide),
    (c10_second_line_silent_and_skip_rules "vh" "vs" "30%" 20 900 250 false 1
      "2025-06-01").2.2 ["Title", "not a date", "tiny."] (by decide)⟩
